import Mathlib

/-!
# Verification of the HR Pack Generator (`src/app.py`)

A shallow embedding of the parts of `src/app.py` that the specification's
claims are about:

* the logo sanitizer `sanitize_logo` (lines 29-72): its filesystem
  effects and error behaviour, and the pixel-level transformation it
  performs (RGBA conversion, `Image.thumbnail((500, 500))` dimension
  computation, and the paste-onto-transparent-canvas rebuild);
* the per-document logo embedding helper `add_logo` (lines 89-96) and
  the PDF branch of `make_documentation` (lines 663-670);
* the orchestrator `generate_hr_pack` (lines 750-812), including the
  company-name slug used for the advertised zip filename (line 790);
* the HTTP handler `handle_generation` (lines 821-879), including its
  validation, error translation and `finally` cleanup.

Filesystem effects are modelled by an explicit state record `FS`;
fallible external operations (Pillow decode/encode, python-docx /
reportlab rendering, `shutil.make_archive`) are modelled by Boolean
oracles saying whether the operation succeeds, and Python exception
propagation is modelled by explicit result types.
-/

/-! ## Filesystem state

One request's view of the filesystem: the scratch directory created by
`tempfile.mkdtemp()` and the files this program creates inside it.
`docsRendered` counts how many of the four generator groups
(`make_hiring_kit`, `make_handbook`, `make_performance`,
`make_documentation`) have completed. -/

structure FS where
  /-- the `base_dir` scratch directory exists -/
  scratch : Bool
  /-- `temp_original_logo` exists inside `base_dir` (app.py line 37) -/
  tempLogo : Bool
  /-- `logo_sanitized.png` exists inside `base_dir` (app.py line 60) -/
  sanitizedLogo : Bool
  /-- number of generator groups that have completed (0..4) -/
  docsRendered : Nat
  /-- `HR_Pack_Final.zip` exists inside `base_dir` (app.py line 805) -/
  archive : Bool
  deriving Repr, DecidableEq

/-- State before the request touches the filesystem, and equally the
state after `shutil.rmtree(base_dir)` removes the whole scratch tree. -/
def FS.clean : FS := ⟨false, false, false, 0, false⟩

/-- State right after `generate_hr_pack` has run `tempfile.mkdtemp()`
and `os.makedirs` for the four pack folders (app.py lines 755-766). -/
def FS.fresh : FS := ⟨true, false, false, 0, false⟩

/-! ## `sanitize_logo` (app.py lines 29-72)

The function saves the upload to `temp_original_logo`, decodes it with
Pillow, converts/resizes/rebuilds it, saves `logo_sanitized.png`,
removes the temp file and returns the new path.  Any exception is caught
and re-raised as `Failed to process logo. ...`; the temp file is removed
only on the success path (line 64 is skipped when line 41-61 raise).
`decodeOk` says whether `PILImage.open` succeeds on the uploaded bytes;
`encodeOk` whether the convert/thumbnail/rebuild/save steps succeed. -/

inductive SanResult where
  /-- normal return: new state and the returned sanitized-logo path -/
  | ok (fs : FS) (path : String)
  /-- the re-raised exception of app.py line 72, with the state as the
  exception escapes -/
  | err (fs : FS) (msg : String)
  deriving Repr, DecidableEq

def logoFailureMsg : String :=
  "Failed to process logo. It may be corrupted or in an unsupported format."

def sanitize_logo (decodeOk encodeOk : Bool) (fs : FS) : SanResult :=
  -- line 38: logo_upload_file.save(temp_logo_path)
  let fs1 : FS := { fs with tempLogo := true }
  if decodeOk = false then
    -- line 41: PILImage.open raises; caught at line 69, re-raised at line 72
    .err fs1 logoFailureMsg
  else if encodeOk = false then
    -- lines 44-61: convert/thumbnail/paste/save raise; same re-raise
    .err fs1 logoFailureMsg
  else
    -- line 61 wrote logo_sanitized.png, line 64 removed the temp file
    .ok { fs1 with sanitizedLogo := true, tempLogo := false } "logo_sanitized.png"

/-! ## Company-name slug (app.py line 790)

`safe_company_name = "".join(c for c in name if c.isalnum() or
c in (' ', '_')).rstrip().replace(" ", "_")`.  `str.isalnum` is modelled
for the ASCII range by `Char.isAlphanum`; `rstrip()` strips trailing
whitespace. -/

def keepChar (c : Char) : Bool := c.isAlphanum || c = ' ' || c = '_'

def safe_company_name (name : String) : String :=
  let kept := name.toList.filter keepChar
  let stripped := (kept.reverse.dropWhile (fun c => c.isWhitespace)).reverse
  (stripped.map (fun c => if c = ' ' then '_' else c)).asString

/-- `zip_filename = f"{safe_company_name}_HR_People_Management_Pack.zip"`
(app.py line 791). -/
def zip_filename (name : String) : String :=
  safe_company_name name ++ "_HR_People_Management_Pack.zip"

/-! ## `generate_hr_pack` (app.py lines 750-812)

Control flow:
1. create scratch dir and four folders (lines 755-766);
2. if a logo was uploaded, `sanitize_logo` — **not** inside any
   try/except here, so its exception propagates out of
   `generate_hr_pack` with no cleanup (lines 769-773);
3. the four generators inside `try:`; on exception
   `shutil.rmtree(base_dir)` then re-raise (lines 777-786);
4. `shutil.make_archive` — again outside the try, so an archiving
   exception propagates with no cleanup (lines 788-802); the archive
   actually written on disk is `HR_Pack_Final.zip` (line 798/805), while
   the slug-derived `zip_filename` is only returned as the intended
   download name (line 812); the slug-named `zip_output_path` of
   line 794 is never used to create a file.
`r1..r4` say whether `make_hiring_kit`, `make_handbook`,
`make_performance`, `make_documentation` succeed; `zipOk` whether
`shutil.make_archive` succeeds. -/

structure GenOk where
  fs : FS
  /-- basename of the first returned value, the file later streamed:
  `final_zip_file = os.path.join(base_dir, "HR_Pack_Final.zip")` -/
  finalZip : String
  /-- second returned value: the advertised download filename -/
  zipName : String
  deriving Repr, DecidableEq

inductive GenResult where
  | ok (g : GenOk)
  | err (fs : FS) (msg : String)
  deriving Repr, DecidableEq

def generate_hr_pack (name : String) (logoPresent decodeOk encodeOk r1 r2 r3 r4 zipOk : Bool) :
    GenResult :=
  -- lines 755-766: mkdtemp + makedirs
  let fs0 := FS.fresh
  -- lines 769-773: sanitize if a logo was uploaded; exception propagates uncaught
  match (if logoPresent then sanitize_logo decodeOk encodeOk fs0 else .ok fs0 "") with
  | .err fs m => .err fs m
  | .ok fs1 _ =>
    -- lines 777-786: the four generators inside try/except-rmtree-reraise
    if r1 && r2 && r3 && r4 then
      let fs2 : FS := { fs1 with docsRendered := 4 }
      -- lines 788-805: make_archive, outside the try block
      if zipOk then
        .ok ⟨{ fs2 with archive := true }, "HR_Pack_Final.zip", zip_filename name⟩
      else
        .err fs2 "Archive creation failed."
    else
      -- line 784: shutil.rmtree(base_dir), then line 786 re-raises
      .err FS.clean "Document render failed."

/-! ## `handle_generation` (app.py lines 821-879)

The endpoint reads the form, raises `Company Name is a required field.`
when `COMPANY_DETAILS['name']` is falsy (absent ⇒ `None`, or the empty
string), runs `generate_hr_pack`, and streams the zip.  Every exception
is caught and turned into a JSON body `An error occurred. {e}` with HTTP
status 500.  The `finally` block removes `base_dir_to_clean` — but that
variable is only assigned when `generate_hr_pack` *returns*, so on any
exception raised inside `generate_hr_pack` it is still `None` and
nothing is cleaned. -/

structure Response where
  status : Nat
  /-- a zip archive body was streamed with `send_file` -/
  isArchive : Bool
  /-- the `download_name` passed to `send_file` -/
  downloadName : Option String
  /-- basename of the file actually streamed from disk -/
  sentFile : Option String
  /-- the JSON `error` field of a failure response -/
  errorMsg : Option String
  /-- filesystem state after the request, `finally` block included -/
  fs : FS
  deriving Repr, DecidableEq

def handle_generation (companyName : Option String)
    (logoPresent decodeOk encodeOk r1 r2 r3 r4 zipOk : Bool) : Response :=
  -- lines 848-849: `if not COMPANY_DETAILS['name']: raise ...`
  if companyName = none || companyName = some "" then
    -- caught at line 866; base_dir_to_clean is None so finally cleans nothing,
    -- and nothing was created anyway
    { status := 500, isArchive := false, downloadName := none, sentFile := none
      errorMsg := some "An error occurred. Company Name is a required field."
      fs := FS.clean }
  else
    match generate_hr_pack (companyName.getD "") logoPresent decodeOk encodeOk r1 r2 r3 r4 zipOk with
    | .err fs m =>
      -- lines 866-869: 500 JSON error; base_dir_to_clean is still None,
      -- so the finally block (lines 871-879) does not touch fs
      { status := 500, isArchive := false, downloadName := none, sentFile := none
        errorMsg := some ("An error occurred. " ++ m), fs := fs }
    | .ok g =>
      -- lines 859-864: send_file(zip_path, download_name=zip_filename);
      -- then the finally block removes base_dir_to_clean entirely
      { status := 200, isArchive := true, downloadName := some g.zipName
        sentFile := some g.finalZip, errorMsg := none, fs := FS.clean }

/-! ## `add_logo` (app.py lines 89-96) and per-document rendering

`add_logo` embeds the sanitized logo at the top of a docx when the path
is set and the file exists; any `add_picture` exception is caught and
only printed ("Don't stop the whole process, just skip the logo"), so
the function always returns and the caller keeps building the document.
`render_docx` models one `make_*` document body: `Document()`,
`add_logo`, content paragraphs, `doc.save(...)`. -/

structure Docx where
  hasLogo : Bool
  paragraphs : Nat
  saved : Bool
  deriving Repr, DecidableEq

def add_logo (logoPath : Option String) (pathExists embedOk : Bool) (doc : Docx) : Docx :=
  if logoPath.isSome && pathExists then
    if embedOk then
      { doc with hasLogo := true }      -- line 93: doc.add_picture(...)
    else
      doc                               -- lines 94-96: exception caught, logo skipped
  else
    doc                                 -- line 92 guard false: nothing added

def render_docx (logoPath : Option String) (pathExists embedOk : Bool)
    (content : Nat) : Docx :=
  let doc := add_logo logoPath pathExists embedOk ⟨false, 0, false⟩
  { doc with paragraphs := content, saved := true }

/-! ## Pixel-level model of the sanitizer's image transformation

`sanitize_logo` performs (app.py lines 41-61):
`image.convert("RGBA")`, `image.thumbnail((500, 500))`,
`new_canvas = PILImage.new("RGBA", image.size, (255, 255, 255, 0))`,
`new_canvas.paste(image, (0, 0), image)`, `new_canvas.save(..., "PNG")`.

Pixels are modelled as RGBA records of naturals (each channel a byte).
Pillow's `paste` with an RGBA mask blends each band with
`BLEND(mask, out, in) = MULDIV255(out, 255-mask) + MULDIV255(in, mask)`
where `MULDIV255(a, b) = (t + (t >> 8)) >> 8` with `t = a*b + 128`
(libImaging `Paste.c` / `ImagingUtils.h`), the mask being the pasted
image's own alpha band.  Python's float arithmetic inside `thumbnail`'s
size computation is modelled by exact rational arithmetic, written with
integer cross-multiplication. -/

structure RGBA where
  r : Nat
  g : Nat
  b : Nat
  a : Nat
  deriving Repr, DecidableEq

/-- `MULDIV255` of libImaging: the rounded product `a*b/255` computed
with shifts, exactly as the C macro does. -/
def muldiv255 (a b : Nat) : Nat :=
  let t := a * b + 128
  (t + t / 256) / 256

/-- `BLEND(mask, in1, in2)` of libImaging `Paste.c`: `in1` is the
destination (canvas) byte, `in2` the pasted source byte. -/
def blend (mask in1 in2 : Nat) : Nat :=
  muldiv255 in1 (255 - mask) + muldiv255 in2 mask

/-- An in-memory raster image: dimensions plus a total pixel map. -/
structure Img where
  width : Nat
  height : Nat
  pix : Nat → Nat → RGBA

/-- `image.convert("RGBA")` (app.py line 44): when the decoded source
has no alpha band (`hasAlpha = false`, e.g. a JPEG/RGB source) Pillow
synthesizes a fully opaque alpha of 255; when it already has one it is
kept as is. -/
def convertRGBA (hasAlpha : Bool) (img : Img) : Img :=
  if hasAlpha then img
  else { img with pix := fun x y => { img.pix x y with a := 255 } }

/-- The rebuild of app.py lines 52-57: a fresh canvas
`(255, 255, 255, 0)` of the image's own size, then
`new_canvas.paste(image, (0, 0), image)` — every band blended with the
image's own alpha as the mask. -/
def rebuild (img : Img) : Img :=
  { width := img.width, height := img.height
    pix := fun x y =>
      let p := img.pix x y
      { r := blend p.a 255 p.r
        g := blend p.a 255 p.g
        b := blend p.a 255 p.b
        a := blend p.a 0 p.a } }

/-! ### `Image.thumbnail((500, 500))` size computation

Pillow's `thumbnail` first checks `x >= self.width and y >= self.height`
with `x = y = 500` and returns unchanged dimensions if so.  Otherwise,
with `aspect = width / height`, if `x / y >= aspect` (for the square
bound: `height >= width`) it sets
`x = round_aspect(y * aspect, key=lambda n: abs(aspect - n / y))`,
else `y = round_aspect(x / aspect,
key=lambda n: 0 if n == 0 else abs(aspect - x / n))`, where
`round_aspect(number, key) = max(min(floor(number), ceil(number),
key=key), 1)` — `min` keeping its first argument on a tie.
The comparisons are modelled exactly over the rationals by
cross-multiplying with the positive denominators. -/

/-- `floor(500 * w / h)`, the floor candidate for the new width. -/
def floorA (w h : Nat) : Nat := 500 * w / h

/-- `ceil(500 * w / h)`, the ceiling candidate for the new width. -/
def ceilA (w h : Nat) : Nat :=
  if h ∣ 500 * w then floorA w h else floorA w h + 1

/-- The key `abs(aspect - n / 500)` for the width branch, scaled by the
positive constant `500 * h`: `|500*w - n*h|`. -/
def keyA (w h n : Nat) : Nat := ((500 * w : Int) - n * h).natAbs

/-- `min(floor, ceil, key)` for the width branch. -/
def chooseA (w h : Nat) : Nat :=
  if keyA w h (floorA w h) ≤ keyA w h (ceilA w h) then floorA w h else ceilA w h

/-- `floor(500 * h / w)`, the floor candidate for the new height. -/
def floorB (w h : Nat) : Nat := 500 * h / w

/-- `ceil(500 * h / w)`, the ceiling candidate for the new height. -/
def ceilB (w h : Nat) : Nat :=
  if w ∣ 500 * h then floorB w h else floorB w h + 1

/-- `min(floor, ceil, key)` for the height branch, whose key is
`0 if n == 0 else abs(aspect - 500 / n)`; for nonzero `n`, `m` the
comparison `key n ≤ key m` cross-multiplies to
`|w*n - 500*h| * m ≤ |w*m - 500*h| * n`. -/
def chooseB (w h : Nat) : Nat :=
  if floorB w h = 0 then floorB w h
  else if ((w * floorB w h : Int) - 500 * h).natAbs * ceilB w h ≤
      ((w * ceilB w h : Int) - 500 * h).natAbs * floorB w h then
    floorB w h
  else ceilB w h

/-- The dimensions `image.size` after `image.thumbnail((500, 500))`
(app.py line 47), which are the dimensions of the sanitized output
canvas (line 52). -/
def thumbnailSize (w h : Nat) : Nat × Nat :=
  if w ≤ 500 ∧ h ≤ 500 then (w, h)
  else if w ≤ h then (max (chooseA w h) 1, 500)
  else (500, max (chooseB w h) 1)

/-- The whole pixel pipeline of `sanitize_logo` for an image already
within the 500×500 bound, where `thumbnail` leaves the pixel data
untouched: convert to RGBA, then rebuild on a transparent canvas. -/
def sanitizePixels (hasAlpha : Bool) (img : Img) : Img :=
  rebuild (convertRGBA hasAlpha img)

/-- A concrete two-pixel-column test image: column 0 fully transparent,
column 1 fully opaque. -/
def imgW : Img :=
  ⟨2, 2, fun x _ => if x = 0 then ⟨10, 20, 30, 0⟩ else ⟨40, 50, 60, 255⟩⟩

/-! ## Claims -/

/-- Claim C6: for every request whose company name is absent (`none`) or
empty, the endpoint returns an error response to the caller (the
endpoint's single JSON error shape, HTTP 500) carrying the explanatory
message `Company Name is a required field.`, and no pack generation is
attempted: the final filesystem state is clean — no scratch directory
was created, no documents rendered, no archive streamed. -/
theorem C6_missing_company_name (companyName : Option String)
    (logoPresent decodeOk encodeOk r1 r2 r3 r4 zipOk : Bool)
    (h : companyName = none ∨ companyName = some "") :
    (handle_generation companyName logoPresent decodeOk encodeOk r1 r2 r3 r4 zipOk).status = 500 ∧
    (handle_generation companyName logoPresent decodeOk encodeOk r1 r2 r3 r4 zipOk).errorMsg =
      some "An error occurred. Company Name is a required field." ∧
    (handle_generation companyName logoPresent decodeOk encodeOk r1 r2 r3 r4 zipOk).isArchive = false ∧
    (handle_generation companyName logoPresent decodeOk encodeOk r1 r2 r3 r4 zipOk).fs = FS.clean := by
  rcases h with h | h <;> subst h <;> simp [handle_generation]

theorem C6_missing_company_name_witness :
    ((none : Option String) = none ∨ (none : Option String) = some "") ∧
    (handle_generation none true true true true true true true true).status = 500 :=
  ⟨Or.inl rfl,
    (C6_missing_company_name none true true true true true true true true (Or.inl rfl)).1⟩

/-- Claim C4: for every request with a logo uploaded whose bytes cannot
be decoded (`decodeOk = false`) or processed/re-encoded
(`encodeOk = false`), the entire generation is aborted: the endpoint
returns the error (status 500 with the sanitizer's failure message), no
archive is streamed and none exists on disk — while the same request
with no logo at all proceeds to a normal archive response. -/
theorem C4_logo_failure_aborts (name : String) (hname : name ≠ "")
    (decodeOk encodeOk r1 r2 r3 r4 zipOk : Bool)
    (hfail : decodeOk = false ∨ encodeOk = false) :
    (handle_generation (some name) true decodeOk encodeOk r1 r2 r3 r4 zipOk).status = 500 ∧
    (handle_generation (some name) true decodeOk encodeOk r1 r2 r3 r4 zipOk).isArchive = false ∧
    (handle_generation (some name) true decodeOk encodeOk r1 r2 r3 r4 zipOk).fs.archive = false ∧
    (handle_generation (some name) true decodeOk encodeOk r1 r2 r3 r4 zipOk).errorMsg =
      some ("An error occurred. " ++ logoFailureMsg) ∧
    (handle_generation (some name) false decodeOk encodeOk true true true true true).status = 200 ∧
    (handle_generation (some name) false decodeOk encodeOk true true true true true).isArchive = true := by
  rcases hfail with h | h
  · subst h
    cases encodeOk <;>
      simp [handle_generation, generate_hr_pack, sanitize_logo, hname, FS.fresh]
  · subst h
    cases decodeOk <;>
      simp [handle_generation, generate_hr_pack, sanitize_logo, hname, FS.fresh]

theorem C4_logo_failure_aborts_witness :
    ("Acme" : String) ≠ "" ∧ (false = false ∨ true = false) ∧
    (handle_generation (some "Acme") true false true true true true true true).status = 500 :=
  ⟨by decide, Or.inl rfl,
    (C4_logo_failure_aborts "Acme" (by decide) false true true true true true true (Or.inl rfl)).1⟩

/-- Claim C5: the sanitizer is all-or-nothing.  Starting from a scratch
directory with no sanitized output, a decode failure returns the logo
failure error with no `logo_sanitized.png` produced; more generally
every successful run has produced the sanitized file (returning its
path) and every failing run has produced none. -/
theorem C5_sanitize_all_or_nothing (decodeOk encodeOk : Bool) (fs : FS)
    (h : fs.sanitizedLogo = false) :
    (decodeOk = false →
      sanitize_logo decodeOk encodeOk fs = .err { fs with tempLogo := true } logoFailureMsg ∧
      ({ fs with tempLogo := true } : FS).sanitizedLogo = false) ∧
    (∀ fs' p, sanitize_logo decodeOk encodeOk fs = .ok fs' p →
      fs'.sanitizedLogo = true ∧ p = "logo_sanitized.png") ∧
    (∀ fs' m, sanitize_logo decodeOk encodeOk fs = .err fs' m →
      fs'.sanitizedLogo = false ∧ m = logoFailureMsg) := by
  cases decodeOk <;> cases encodeOk <;> simp [sanitize_logo, h]

theorem C5_sanitize_all_or_nothing_witness :
    (FS.fresh.sanitizedLogo = false) ∧
    sanitize_logo false true FS.fresh = .err { FS.fresh with tempLogo := true } logoFailureMsg :=
  ⟨rfl, ((C5_sanitize_all_or_nothing false true FS.fresh rfl).1 rfl).1⟩

/-- Claim C7: whenever one of the four document generators fails (and
the logo step did not already fail), the whole generation aborts: the
endpoint returns status 500, no archive body is streamed (no partial
pack), and the scratch directory built so far has been removed
(`shutil.rmtree` in the `except` block of `generate_hr_pack`). -/
theorem C7_render_failure_aborts (name : String) (hname : name ≠ "")
    (logoPresent decodeOk encodeOk r1 r2 r3 r4 zipOk : Bool)
    (hsan : logoPresent = true → decodeOk = true ∧ encodeOk = true)
    (hfail : (r1 && r2 && r3 && r4) = false) :
    (handle_generation (some name) logoPresent decodeOk encodeOk r1 r2 r3 r4 zipOk).status = 500 ∧
    (handle_generation (some name) logoPresent decodeOk encodeOk r1 r2 r3 r4 zipOk).isArchive = false ∧
    (handle_generation (some name) logoPresent decodeOk encodeOk r1 r2 r3 r4 zipOk).errorMsg =
      some "An error occurred. Document render failed." ∧
    (handle_generation (some name) logoPresent decodeOk encodeOk r1 r2 r3 r4 zipOk).fs = FS.clean := by
  cases logoPresent
  · simp [handle_generation, generate_hr_pack, hname, hfail]
  · obtain ⟨h1, h2⟩ := hsan rfl
    subst h1 h2
    simp [handle_generation, generate_hr_pack, sanitize_logo, hname, hfail]

theorem C7_render_failure_aborts_witness :
    ("Acme" : String) ≠ "" ∧ ((true && true && false && true) = false) ∧
    (handle_generation (some "Acme") true true true true true false true true).fs = FS.clean :=
  ⟨by decide, rfl,
    (C7_render_failure_aborts "Acme" (by decide) true true true true true false true true
      (fun _ => ⟨rfl, rfl⟩) rfl).2.2.2⟩

/-- Claim C3, as stated, is false: a logo-sanitization failure surfaces
the error while the scratch directory created for the request still
exists (with the temp logo file inside).  Concretely, for company name
`Acme`, a logo upload whose bytes do not decode: status 500 is returned
and the scratch directory remains. -/
theorem C3_counterexample :
    (handle_generation (some "Acme") true false true true true true true true).status = 500 ∧
    (handle_generation (some "Acme") true false true true true true true true).fs.scratch = true ∧
    (handle_generation (some "Acme") true false true true true true true true).fs.tempLogo = true := by
  decide

/-- Claim C3 (amended): only a document-render failure deletes the
scratch tree before the error is surfaced; a logo-sanitization failure
and an archive-creation failure both surface the error with the scratch
directory left behind (the endpoint's `finally` cleanup never sees a
`base_dir` for a generation that raised). -/
theorem C3_scratch_cleanup_only_on_render_failure (name : String) (hname : name ≠ "")
    (logoPresent decodeOk encodeOk r1 r2 r3 r4 zipOk : Bool) :
    ((logoPresent = true → decodeOk = true ∧ encodeOk = true) →
      (r1 && r2 && r3 && r4) = false →
      (handle_generation (some name) logoPresent decodeOk encodeOk r1 r2 r3 r4 zipOk).status = 500 ∧
      (handle_generation (some name) logoPresent decodeOk encodeOk r1 r2 r3 r4 zipOk).fs = FS.clean) ∧
    (logoPresent = true → (decodeOk = false ∨ encodeOk = false) →
      (handle_generation (some name) logoPresent decodeOk encodeOk r1 r2 r3 r4 zipOk).status = 500 ∧
      (handle_generation (some name) logoPresent decodeOk encodeOk r1 r2 r3 r4 zipOk).fs.scratch = true) ∧
    ((logoPresent = true → decodeOk = true ∧ encodeOk = true) →
      (r1 && r2 && r3 && r4) = true → zipOk = false →
      (handle_generation (some name) logoPresent decodeOk encodeOk r1 r2 r3 r4 zipOk).status = 500 ∧
      (handle_generation (some name) logoPresent decodeOk encodeOk r1 r2 r3 r4 zipOk).fs.scratch = true) := by
  cases logoPresent <;> cases decodeOk <;> cases encodeOk <;>
    cases r1 <;> cases r2 <;> cases r3 <;> cases r4 <;> cases zipOk <;>
      simp [handle_generation, generate_hr_pack, sanitize_logo, hname, FS.fresh]

theorem C3_scratch_cleanup_only_on_render_failure_witness :
    ("Acme" : String) ≠ "" ∧
    (handle_generation (some "Acme") true false true true true true true false).status = 500 ∧
    (handle_generation (some "Acme") true false true true true true true false).fs.scratch = true :=
  ⟨by decide,
    (C3_scratch_cleanup_only_on_render_failure "Acme" (by decide)
      true false true true true true true false).2.1 rfl (Or.inl rfl)⟩

/-- Claim C8, as stated, is false: the compressed bundle written (and
streamed) from disk is always `HR_Pack_Final.zip` — `generate_hr_pack`
passes `HR_Pack_Final` to `shutil.make_archive` and returns that path,
while the slug-named `zip_output_path` is computed but never used.  For
company name `Contoh Sdn Bhd` the endpoint suggests the slug-based
download filename yet streams the differently-named file. -/
theorem C8_counterexample :
    (handle_generation (some "Contoh Sdn Bhd") false true true true true true true true).downloadName =
      some "Contoh_Sdn_Bhd_HR_People_Management_Pack.zip" ∧
    (handle_generation (some "Contoh Sdn Bhd") false true true true true true true true).sentFile =
      some "HR_Pack_Final.zip" ∧
    ("HR_Pack_Final.zip" : String) ≠ "Contoh_Sdn_Bhd_HR_People_Management_Pack.zip" := by
  decide

/-- Claim C8 (amended): for every successful generation the endpoint
reports, as the suggested download filename, the name built from the
filesystem-safe slug of the company name (alphanumerics, spaces and
underscores kept, trailing whitespace stripped, spaces replaced by
underscores — `safe_company_name`) followed by
`_HR_People_Management_Pack.zip`; the archive file actually on disk,
however, is always named `HR_Pack_Final.zip`. -/
theorem C8_slug_download_name (name : String) (hname : name ≠ "") :
    (handle_generation (some name) false true true true true true true true).downloadName =
      some (safe_company_name name ++ "_HR_People_Management_Pack.zip") ∧
    (handle_generation (some name) false true true true true true true true).sentFile =
      some "HR_Pack_Final.zip" ∧
    (handle_generation (some name) false true true true true true true true).status = 200 ∧
    (handle_generation (some name) false true true true true true true true).isArchive = true := by
  simp [handle_generation, generate_hr_pack, zip_filename, hname]

theorem C8_slug_download_name_witness :
    ("Contoh Sdn Bhd" : String) ≠ "" ∧
    (handle_generation (some "Contoh Sdn Bhd") false true true true true true true true).downloadName =
      some (safe_company_name "Contoh Sdn Bhd" ++ "_HR_People_Management_Pack.zip") :=
  ⟨by decide, (C8_slug_download_name "Contoh Sdn Bhd" (by decide)).1⟩

/-- Claim C9: a failure while embedding the logo into an individual
word-processing document is non-fatal to that document: `add_logo`
catches the `add_picture` exception, the document body is still built
and saved, just without the logo; and for every embedding outcome the
document is produced. -/
theorem C9_embed_failure_nonfatal (logoPath : Option String) (pathExists : Bool)
    (content : Nat) :
    (render_docx logoPath pathExists false content).saved = true ∧
    (render_docx logoPath pathExists false content).paragraphs = content ∧
    (render_docx logoPath pathExists false content).hasLogo = false ∧
    (∀ embedOk : Bool, (render_docx logoPath pathExists embedOk content).saved = true ∧
      (render_docx logoPath pathExists embedOk content).paragraphs = content) := by
  refine ⟨rfl, rfl, ?_, fun embedOk => ?_⟩
  · cases logoPath <;> cases pathExists <;> simp [render_docx, add_logo]
  · exact ⟨rfl, rfl⟩

/-- Claim C10: when sanitization fails after the upload has been saved
(every failure happens after the `save` on line 38), the intermediate
`temp_original_logo` file is left in the caller-supplied scratch
directory — `os.remove` runs only on the success path; lifted to the
orchestrator, a decode failure leaves a scratch directory that still
exists and still contains the temp file. -/
theorem C10_temp_file_left_behind (decodeOk encodeOk : Bool) (fs : FS) :
    (∀ fs' m, sanitize_logo decodeOk encodeOk fs = .err fs' m → fs'.tempLogo = true) ∧
    (∀ fs' p, sanitize_logo decodeOk encodeOk fs = .ok fs' p → fs'.tempLogo = false) ∧
    (decodeOk = false → ∀ name r1 r2 r3 r4 zipOk,
      ∃ fs' m, generate_hr_pack name true decodeOk encodeOk r1 r2 r3 r4 zipOk = .err fs' m ∧
        fs'.scratch = true ∧ fs'.tempLogo = true) := by
  refine ⟨?_, ?_, ?_⟩
  · intro fs' m h
    cases decodeOk <;> cases encodeOk
    all_goals simp [sanitize_logo] at h
    all_goals (obtain ⟨h1, h2⟩ := h; subst h1; rfl)
  · intro fs' p h
    cases decodeOk <;> cases encodeOk
    all_goals simp [sanitize_logo] at h
    all_goals (obtain ⟨h1, h2⟩ := h; subst h1; rfl)
  · intro h name r1 r2 r3 r4 zipOk
    subst h
    exact ⟨{ FS.fresh with tempLogo := true }, logoFailureMsg, rfl, rfl, rfl⟩

theorem C10_temp_file_left_behind_witness :
    (false = false) ∧
    ∃ fs' m, generate_hr_pack "Acme" true false true true true true true true = .err fs' m ∧
      fs'.scratch = true ∧ fs'.tempLogo = true :=
  ⟨rfl, (C10_temp_file_left_behind false true FS.clean).2.2 rfl "Acme" true true true true true⟩

/-- Claim C2: the sanitized image is 4-channel RGBA (the canvas of
`sanitizePixels` carries an alpha band at every pixel) of the same
dimensions as the image entering the rebuild; a source with no alpha
channel gets a fully opaque output alpha everywhere, and when the image
is composited onto the fresh fully-transparent canvas with its own
alpha as the paste mask, fully transparent pixels (alpha 0) stay fully
transparent and fully opaque pixels (alpha 255) stay fully opaque. -/
theorem C2_alpha_preservation (hasAlpha : Bool) (img : Img) (x y : Nat) :
    (sanitizePixels hasAlpha img).width = img.width ∧
    (sanitizePixels hasAlpha img).height = img.height ∧
    (hasAlpha = false → ((sanitizePixels hasAlpha img).pix x y).a = 255) ∧
    (hasAlpha = true → (img.pix x y).a = 0 →
      ((sanitizePixels hasAlpha img).pix x y).a = 0) ∧
    (hasAlpha = true → (img.pix x y).a = 255 →
      ((sanitizePixels hasAlpha img).pix x y).a = 255) := by
  cases hasAlpha
  · refine ⟨rfl, rfl, ?_, ?_, ?_⟩
    · intro _
      show blend 255 0 255 = 255
      decide
    · intro h
      exact absurd h (by simp)
    · intro h
      exact absurd h (by simp)
  · refine ⟨rfl, rfl, ?_, ?_, ?_⟩
    · intro h
      exact absurd h (by simp)
    · intro _ ha
      show blend (img.pix x y).a 0 (img.pix x y).a = 0
      rw [ha]
      decide
    · intro _ ha
      show blend (img.pix x y).a 0 (img.pix x y).a = 255
      rw [ha]
      decide

theorem C2_alpha_preservation_witness :
    ((imgW.pix 0 0).a = 0 → ((sanitizePixels true imgW).pix 0 0).a = 0) ∧
    ((sanitizePixels true imgW).pix 0 0).a = 0 ∧
    ((sanitizePixels true imgW).pix 1 0).a = 255 ∧
    ((sanitizePixels false imgW).pix 0 1).a = 255 :=
  ⟨(C2_alpha_preservation true imgW 0 0).2.2.2.1 rfl,
   (C2_alpha_preservation true imgW 0 0).2.2.2.1 rfl rfl,
   (C2_alpha_preservation true imgW 1 0).2.2.2.2 rfl rfl,
   (C2_alpha_preservation false imgW 0 1).2.2.1 rfl⟩

/-! ### Arithmetic facts about the thumbnail size computation -/

lemma chooseA_spec (w h : Nat) :
    chooseA w h = floorA w h ∨ (chooseA w h = floorA w h + 1 ∧ ¬h ∣ 500 * w) := by
  by_cases hd : h ∣ 500 * w
  · left
    unfold chooseA ceilA
    simp [hd]
  · unfold chooseA ceilA
    simp only [if_neg hd]
    split
    · exact Or.inl rfl
    · exact Or.inr ⟨rfl, hd⟩

lemma widthA_bounds (w h : Nat) (hw : 1 ≤ w) (hwh : w ≤ h) (hh : 500 < h) :
    max (chooseA w h) 1 ≤ 500 ∧ max (chooseA w h) 1 ≤ w ∧
    ((max (chooseA w h) 1 * h : Int) - 500 * w).natAbs < h := by
  have h0 : 0 < h := by omega
  have heq : h * floorA w h + 500 * w % h = 500 * w := Nat.div_add_mod (500 * w) h
  have hrem : 500 * w % h < h := Nat.mod_lt _ h0
  have hnw : floorA w h < w := by
    rw [floorA, Nat.div_lt_iff_lt_mul h0]
    calc 500 * w < h * w := mul_lt_mul_of_pos_right hh (by omega)
    _ = w * h := mul_comm h w
  have h2 : floorA w h ≤ 500 := by
    have hd : 500 * w / h ≤ 500 * h / h := Nat.div_le_div_right (Nat.mul_le_mul_left 500 hwh)
    rw [Nat.mul_div_cancel _ h0] at hd
    exact hd
  have heqz : (h : Int) * floorA w h + (500 * w % h : Nat) = 500 * w := by exact_mod_cast heq
  have hdvd : (h ∣ 500 * w) ↔ 500 * w % h = 0 := Nat.dvd_iff_mod_eq_zero
  rcases chooseA_spec w h with hc | ⟨hc, hnd⟩
  · rcases Nat.eq_zero_or_pos (floorA w h) with hz | hpos
    · rw [hz] at heq
      rw [hc, hz]
      have hsw : 500 * w < h := by omega
      refine ⟨by omega, by omega, ?_⟩
      have hone : max 0 1 = 1 := rfl
      rw [hone]
      have key : ((1 : Nat) : Int) * h - 500 * w = (h : Int) - ((500 * w : Nat) : Int) := by
        push_cast
        ring
      rw [key]
      omega
    · rw [hc]
      have hmax : max (floorA w h) 1 = floorA w h := by omega
      rw [hmax]
      refine ⟨h2, by omega, ?_⟩
      have key : ((floorA w h : Nat) : Int) * h - 500 * w = -((500 * w % h : Nat) : Int) := by
        linear_combination heqz
      rw [key]
      omega
  · have hr0 : 500 * w % h ≠ 0 := fun he => hnd (hdvd.mpr he)
    have h3 : floorA w h + 1 ≤ 500 := by
      rcases Nat.lt_or_ge (floorA w h) 500 with hlt | hge
      · omega
      · have hn500 : floorA w h = 500 := by omega
        rw [hn500] at heq
        have hle : 500 * w ≤ 500 * h := Nat.mul_le_mul_left 500 hwh
        omega
    rw [hc]
    have hmax : max (floorA w h + 1) 1 = floorA w h + 1 := by omega
    rw [hmax]
    refine ⟨h3, by omega, ?_⟩
    have key : ((floorA w h + 1 : Nat) : Int) * h - 500 * w =
        (h : Int) - ((500 * w % h : Nat) : Int) := by
      rw [Nat.cast_add, Nat.cast_one]
      linear_combination heqz
    rw [key]
    omega

lemma chooseB_spec (w h : Nat) :
    chooseB w h = floorB w h ∨ (chooseB w h = floorB w h + 1 ∧ ¬w ∣ 500 * h) := by
  by_cases hd : w ∣ 500 * h
  · left
    unfold chooseB ceilB
    simp [hd]
  · unfold chooseB ceilB
    simp only [if_neg hd]
    split
    · exact Or.inl rfl
    · split
      · exact Or.inl rfl
      · exact Or.inr ⟨rfl, hd⟩

lemma heightB_bounds (w h : Nat) (hh : 1 ≤ h) (hhw : h ≤ w) (hw : 500 < w) :
    max (chooseB w h) 1 ≤ 500 ∧ max (chooseB w h) 1 ≤ h ∧
    ((max (chooseB w h) 1 * w : Int) - 500 * h).natAbs < w := by
  have h0 : 0 < w := by omega
  have heq : w * floorB w h + 500 * h % w = 500 * h := Nat.div_add_mod (500 * h) w
  have hrem : 500 * h % w < w := Nat.mod_lt _ h0
  have hnh : floorB w h < h := by
    rw [floorB, Nat.div_lt_iff_lt_mul h0]
    calc 500 * h < w * h := mul_lt_mul_of_pos_right hw (by omega)
    _ = h * w := mul_comm w h
  have h2 : floorB w h ≤ 500 := by
    have hd : 500 * h / w ≤ 500 * w / w := Nat.div_le_div_right (Nat.mul_le_mul_left 500 hhw)
    rw [Nat.mul_div_cancel _ h0] at hd
    exact hd
  have heqz : (w : Int) * floorB w h + (500 * h % w : Nat) = 500 * h := by exact_mod_cast heq
  have hdvd : (w ∣ 500 * h) ↔ 500 * h % w = 0 := Nat.dvd_iff_mod_eq_zero
  rcases chooseB_spec w h with hc | ⟨hc, hnd⟩
  · rcases Nat.eq_zero_or_pos (floorB w h) with hz | hpos
    · rw [hz] at heq
      rw [hc, hz]
      have hsh : 500 * h < w := by omega
      refine ⟨by omega, by omega, ?_⟩
      have hone : max 0 1 = 1 := rfl
      rw [hone]
      have key : ((1 : Nat) : Int) * w - 500 * h = (w : Int) - ((500 * h : Nat) : Int) := by
        push_cast
        ring
      rw [key]
      omega
    · rw [hc]
      have hmax : max (floorB w h) 1 = floorB w h := by omega
      rw [hmax]
      refine ⟨h2, by omega, ?_⟩
      have key : ((floorB w h : Nat) : Int) * w - 500 * h = -((500 * h % w : Nat) : Int) := by
        linear_combination heqz
      rw [key]
      omega
  · have hr0 : 500 * h % w ≠ 0 := fun he => hnd (hdvd.mpr he)
    have h3 : floorB w h + 1 ≤ 500 := by
      rcases Nat.lt_or_ge (floorB w h) 500 with hlt | hge
      · omega
      · have hn500 : floorB w h = 500 := by omega
        rw [hn500] at heq
        have hle : 500 * h ≤ 500 * w := Nat.mul_le_mul_left 500 hhw
        omega
    rw [hc]
    have hmax : max (floorB w h + 1) 1 = floorB w h + 1 := by omega
    rw [hmax]
    refine ⟨h3, by omega, ?_⟩
    have key : ((floorB w h + 1 : Nat) : Int) * w - 500 * h =
        (w : Int) - ((500 * h % w : Nat) : Int) := by
      rw [Nat.cast_add, Nat.cast_one]
      linear_combination heqz
    rw [key]
    omega

/-- Claim C1: for every decoded image (positive dimensions `w × h`), the
sanitized output dimensions `thumbnailSize w h` are each at most 500;
the image is never upscaled (each output dimension is at most the
corresponding input dimension, and if both inputs are already within the
500 bound the output equals the input exactly); and the aspect ratio is
preserved by proportional scaling up to the rounding of one axis:
`|w' * h - h' * w| < max w h`, i.e. the scaled axis differs from the
exact proportional value by less than one pixel. -/
theorem C1_thumbnail_bounds (w h : Nat) (hw : 1 ≤ w) (hh : 1 ≤ h) :
    (thumbnailSize w h).1 ≤ 500 ∧ (thumbnailSize w h).2 ≤ 500 ∧
    (thumbnailSize w h).1 ≤ w ∧ (thumbnailSize w h).2 ≤ h ∧
    (w ≤ 500 → h ≤ 500 → thumbnailSize w h = (w, h)) ∧
    (((thumbnailSize w h).1 * h : Int) - (thumbnailSize w h).2 * w).natAbs < max w h := by
  by_cases hb : w ≤ 500 ∧ h ≤ 500
  · rw [thumbnailSize, if_pos hb]
    refine ⟨hb.1, hb.2, le_refl w, le_refl h, fun _ _ => rfl, ?_⟩
    have key : ((w : Int) * h - (h : Int) * w) = 0 := by ring
    simp only [Prod.fst, Prod.snd]
    omega
  · rw [thumbnailSize, if_neg hb]
    by_cases hwh : w ≤ h
    · rw [if_pos hwh]
      have hh5 : 500 < h := by omega
      obtain ⟨b1, b2, b3⟩ := widthA_bounds w h hw hwh hh5
      refine ⟨b1, le_refl 500, b2, by omega, fun hww hhh => absurd ⟨hww, hhh⟩ hb, ?_⟩
      exact lt_of_lt_of_le b3 (le_max_right w h)
    · rw [if_neg hwh]
      have hw5 : 500 < w := by omega
      obtain ⟨b1, b2, b3⟩ := heightB_bounds w h hh (by omega) hw5
      refine ⟨le_refl 500, b1, by omega, b2, fun hww hhh => absurd ⟨hww, hhh⟩ hb, ?_⟩
      have key : ((500 : Nat) : Int) * h - (max (chooseB w h) 1 : Nat) * w =
          -((max (chooseB w h) 1 * w : Int) - 500 * h) := by
        push_cast
        ring
      show (((500 : Nat) : Int) * h - ((max (chooseB w h) 1 : Nat) : Int) * w).natAbs < max w h
      rw [key, Int.natAbs_neg]
      exact lt_of_lt_of_le b3 (le_max_left w h)

theorem C1_thumbnail_bounds_witness :
    (1 ≤ 1000 ∧ 1 ≤ 800) ∧ thumbnailSize 1000 800 = (500, 400) ∧
    (thumbnailSize 1000 800).1 ≤ 500 ∧ (thumbnailSize 1000 800).2 ≤ 800 :=
  ⟨⟨by decide, by decide⟩, by decide,
    (C1_thumbnail_bounds 1000 800 (by decide) (by decide)).1,
    (C1_thumbnail_bounds 1000 800 (by decide) (by decide)).2.2.2.1⟩
